import Mathlib

/-!
Verification development for the log-analysis engine
(`src/processors/log_analyzer.py`, class `LogAnalyzer`).

The Python source is shallowly embedded below:
* parsed log entries become the `LogEntry` structure (a `pandas` row);
* the default entry regex becomes the executable scanner `scan`;
* `pd.to_datetime` on the matched `YYYY-MM-DD HH:MM:SS` strings becomes
  `parseTimestamp`, returning epoch seconds and rejecting invalid
  calendar fields exactly where `pandas` raises;
* each analysis method of `LogAnalyzer` becomes a Lean function of the
  same name, with Python exceptions surfaced as `PyError` values via
  `Except` where the source lets them escape, and swallowed where the
  source catches them;
* the file system seen by `analyze_logs` becomes an explicit list of
  files, each either readable decoded text or a read failure.

All numeric work is done in `ℚ`/`ℤ` (the source works in whole seconds
and exact counts at every point the claims touch).
-/

set_option maxRecDepth 4000

namespace LogAnalyzer

/- The Batteries rational operations are `@[irreducible]`, which
blocks `decide` from evaluating the exact arithmetic; restore the
ordinary transparency for this file. -/
attribute [local semireducible] Rat.add Rat.sub Rat.mul Rat.inv Rat.ofScientific

/-- Python exception values that can escape the analyzer. -/
inductive PyError where
  | valueError (payload : String)
  | attributeError (payload : String)
  deriving Repr, DecidableEq

/-- One parsed log entry: the dict produced per regex match, with
`timestamp` already converted to a time point (modelled as epoch
seconds).  The default pattern has no `component` group, so entries
from the default parser carry `none`; data frames built directly by
callers (as the repository tests do) may carry components. -/
structure LogEntry where
  timestamp : Int
  level : String
  message : String
  component : Option String
  deriving Repr, DecidableEq

/-- A `pandas.DataFrame` of log entries, as consumed by the analysis
methods: the row list plus whether a `component` column exists at all
(in pandas the column exists iff some row dict carried the key; rows
without it hold NaN, modelled as `none`). -/
structure DF where
  hasComponentColumn : Bool
  rows : List LogEntry
  deriving Repr, DecidableEq

/-! ## The default entry pattern

The source compiles (MULTILINE and DOTALL)

  `\[(?P<timestamp>\d{4}-\d{2}-\d{2}\s\d{2}:\d{2}:\d{2})\]\s*`
  `(?P<level>ERROR|WARN|INFO|DEBUG)\s*-\s*(?P<message>.*?)(?=\n\[|$)`

and iterates `finditer` over the file content.  Because `$` in
MULTILINE mode matches before every newline, the lazy message group
always stops at the first newline after it starts (or at end of
input), and the greedy `\s*` runs never need to backtrack (no
whitespace character can begin a level token or be `-`).  `finditer`
scans left to right, emitting non-overlapping matches and advancing
one character past positions where the pattern fails.  `scan` below
implements exactly that semantics. -/

/-- The raw named groups of one regex match, before timestamp
conversion (`match.groupdict()`). -/
structure RawMatch where
  timestamp : String
  level : String
  message : String
  deriving Repr, DecidableEq

/-- Python `\s` for the ASCII range. -/
def isPyWs (c : Char) : Bool :=
  c = ' ' || c = '\t' || c = '\n' || c = '\x0b' || c = '\x0c' || c = '\r'

/-- Consume exactly `n` digit characters. -/
def takeDigits : Nat → List Char → Option (List Char × List Char)
  | 0, cs => some ([], cs)
  | _ + 1, [] => none
  | n + 1, c :: cs =>
    if c.isDigit then
      match takeDigits n cs with
      | some (ds, r) => some (c :: ds, r)
      | none => none
    else none

/-- Consume one expected literal character. -/
def expectChar (c : Char) : List Char → Option (List Char)
  | [] => none
  | d :: cs => if d = c then some cs else none

/-- The level alternation `ERROR|WARN|INFO|DEBUG`; the four tokens
start with distinct letters, so the alternation is deterministic. -/
def matchLevel (cs : List Char) : Option (String × List Char) :=
  match cs with
  | 'E' :: 'R' :: 'R' :: 'O' :: 'R' :: r => some ("ERROR", r)
  | 'W' :: 'A' :: 'R' :: 'N' :: r => some ("WARN", r)
  | 'I' :: 'N' :: 'F' :: 'O' :: r => some ("INFO", r)
  | 'D' :: 'E' :: 'B' :: 'U' :: 'G' :: r => some ("DEBUG", r)
  | _ => none

/-- Match the clock part `dd:dd:dd]` and return its nine characters
together with the rest after `]`. -/
def matchClock (cs : List Char) : Option (List Char × List Char) :=
  match takeDigits 2 cs with
  | none => none
  | some (hh, r1) =>
    match expectChar ':' r1 with
    | none => none
    | some r2 =>
      match takeDigits 2 r2 with
      | none => none
      | some (mi, r3) =>
        match expectChar ':' r3 with
        | none => none
        | some r4 =>
          match takeDigits 2 r4 with
          | none => none
          | some (ss, r5) =>
            match expectChar ']' r5 with
            | none => none
            | some r6 => some (hh ++ ':' :: mi ++ ':' :: ss, r6)

/-- Match the date part `[dddd-dd-dd` followed by one `\s` character,
returning the matched timestamp prefix (without the opening bracket)
and the rest. -/
def matchDate (cs : List Char) : Option (List Char × List Char) :=
  match expectChar '[' cs with
  | none => none
  | some r1 =>
    match takeDigits 4 r1 with
    | none => none
    | some (y, r2) =>
      match expectChar '-' r2 with
      | none => none
      | some r3 =>
        match takeDigits 2 r3 with
        | none => none
        | some (mo, r4) =>
          match expectChar '-' r4 with
          | none => none
          | some r5 =>
            match takeDigits 2 r5 with
            | none => none
            | some (d, r6) =>
              match r6 with
              | [] => none
              | w :: r7 =>
                if isPyWs w then some (y ++ '-' :: mo ++ '-' :: d ++ [w], r7)
                else none

/-- Match `\s*(ERROR|WARN|INFO|DEBUG)\s*-\s*` then the lazy message
group, returning level, message and the rest of the input.  The
greedy whitespace runs never backtrack (no whitespace character can
start a level token or be `-`), and the lazy message always ends at
the first newline after it starts or at end of input, because `$` in
MULTILINE mode matches before every newline. -/
def matchTail (cs : List Char) : Option (String × String × List Char) :=
  match matchLevel (cs.dropWhile isPyWs) with
  | none => none
  | some (lvl, r1) =>
    match expectChar '-' (r1.dropWhile isPyWs) with
    | none => none
    | some r2 =>
      let r3 := r2.dropWhile isPyWs
      let msg := r3.takeWhile (fun c => c ≠ '\n')
      let rest := r3.dropWhile (fun c => c ≠ '\n')
      some (lvl, String.mk msg, rest)

/-- Try to match the full pattern at the head of the input; on success
return the captured groups and the rest of the input after the match.
A successful match consumes at least the 21-character header, so the
rest is strictly shorter than the input. -/
def tryMatchAt (cs0 : List Char) : Option (RawMatch × List Char) :=
  match matchDate cs0 with
  | none => none
  | some (date, r1) =>
    match matchClock r1 with
    | none => none
    | some (clock, r2) =>
      match matchTail r2 with
      | none => none
      | some (lvl, msg, rest) =>
        some ({ timestamp := String.mk (date ++ clock), level := lvl, message := msg }, rest)

/-- `finditer` driver: at each position try the pattern; on a match
emit it and resume after the match, otherwise advance one character.
The fuel starts at the input length; every step consumes at least one
character, so the fuel never runs out before the input does. -/
def scanAux : Nat → List Char → List RawMatch
  | 0, _ => []
  | _ + 1, [] => []
  | fuel + 1, c :: cs =>
    match tryMatchAt (c :: cs) with
    | some (m, rest) => m :: scanAux fuel rest
    | none => scanAux fuel cs

/-- All pattern matches of the file content, in order. -/
def scan (content : String) : List RawMatch :=
  scanAux content.toList.length content.toList

/-! ## Timestamp conversion (`pd.to_datetime`)

The matched timestamp string always has the shape
`dddd-dd-dd<ws>dd:dd:dd`.  `pd.to_datetime(...)` (default
`errors="raise"`) converts it to a `Timestamp` and raises on an
invalid calendar date or clock time, or when the instant leaves the
nanosecond `int64` range of `pd.Timestamp`.  The conversion is
modelled as epoch seconds via the standard civil-days computation. -/

/-- Floor division variant used for calendar arithmetic. -/
def fdiv (a b : Int) : Int := Int.fdiv a b

/-- Gregorian leap year. -/
def isLeapYear (y : Int) : Bool :=
  Int.emod y 4 = 0 && (Int.emod y 100 ≠ 0 || Int.emod y 400 = 0)

/-- Days in a month of a given year. -/
def daysInMonth (y m : Int) : Int :=
  if m = 1 || m = 3 || m = 5 || m = 7 || m = 8 || m = 10 || m = 12 then 31
  else if m = 4 || m = 6 || m = 9 || m = 11 then 30
  else if isLeapYear y then 29
  else 28

/-- Days elapsed since 1970-01-01 for a civil date (proleptic
Gregorian). -/
def daysFromCivil (y m d : Int) : Int :=
  let y2 := if m ≤ 2 then y - 1 else y
  let m2 := if m ≤ 2 then m + 12 else m
  365 * y2 + fdiv y2 4 - fdiv y2 100 + fdiv y2 400
    + fdiv (153 * (m2 - 3) + 2) 5 + (d - 1) - 719468

/-- Epoch seconds of a civil date-time. -/
def epochOf (y m d hh mi ss : Int) : Int :=
  86400 * daysFromCivil y m d + 3600 * hh + 60 * mi + ss

/-- Whole-second instants representable by `pd.Timestamp`
( nanoseconds in signed 64-bit range ). -/
def inTimestampRange (t : Int) : Bool :=
  -9223372036 ≤ t && t ≤ 9223372036

/-- Numeric value of a decimal digit character. -/
def digitVal (c : Char) : Int := Int.ofNat c.toNat - 48

/-- `pd.to_datetime` on a matched timestamp string: `some` epoch
seconds when the fields form a valid in-range instant, `none` when the
conversion raises. -/
def parseTimestamp (s : String) : Option Int :=
  match s.toList with
  | [y1, y2, y3, y4, '-', a1, a2, '-', b1, b2, w, h1, h2, ':', m1, m2, ':', s1, s2] =>
    if ([y1, y2, y3, y4, a1, a2, b1, b2, h1, h2, m1, m2, s1, s2].all Char.isDigit
        && isPyWs w) then
      let y := 1000 * digitVal y1 + 100 * digitVal y2 + 10 * digitVal y3 + digitVal y4
      let mo := 10 * digitVal a1 + digitVal a2
      let d := 10 * digitVal b1 + digitVal b2
      let hh := 10 * digitVal h1 + digitVal h2
      let mi := 10 * digitVal m1 + digitVal m2
      let ss := 10 * digitVal s1 + digitVal s2
      let t := epochOf y mo d hh mi ss
      if (1 ≤ mo && mo ≤ 12 && 1 ≤ d && d ≤ daysInMonth y mo
          && hh ≤ 23 && mi ≤ 59 && ss ≤ 59 && inTimestampRange t) then
        some t
      else none
    else none
  | _ => none

/-- Entry built from a raw match (timestamp already known valid; the
default `0` is never used on the paths where this is applied). -/
def toEntry (m : RawMatch) : LogEntry :=
  { timestamp := (parseTimestamp m.timestamp).getD 0
    level := m.level
    message := m.message
    component := none }

/-- The raw matches of a file up to and including the first one whose
timestamp conversion raises. -/
def firstInvalid (ms : List RawMatch) : Option RawMatch :=
  (ms.dropWhile (fun m => (parseTimestamp m.timestamp).isSome)).head?

/-- Convert the stream of raw matches the way the generator body does:
each match becomes an entry after `pd.to_datetime`; the first match
with an unconvertible timestamp raises, ending the stream after the
entries already yielded. -/
def convertMatches : List RawMatch → List LogEntry × Option PyError
  | [] => ([], none)
  | m :: ms =>
    match parseTimestamp m.timestamp with
    | some t =>
      let (es, err) := convertMatches ms
      ({ timestamp := t, level := m.level, message := m.message, component := none } :: es, err)
    | none => ([], some (PyError.valueError m.timestamp))

/-- `process_log_file`, applied to the decoded content of an existing
file (the caller `analyze_logs` only hands it files produced by the
directory scan, and models unreadable files separately).  Returns the
entries the generator yields before finishing or raising, together
with the exception if one is raised mid-iteration. -/
def process_log_file (content : String) : List LogEntry × Option PyError :=
  convertMatches (scan content)

/-! ## Grouping and statistics helpers

`detect_anomalies` and `analyze_trends` both run
`df.groupby([pd.Grouper(key="timestamp", freq="H"/"h"), "level"]).size()`:
entries are counted per (hour bucket, severity level) over the
observed pairs, with the time index sorted ascending.  An hour bucket
is the floor of the epoch second to the hour. -/

/-- Hour bucket index of a timestamp (`pd.Grouper(freq="H")` floors to
the hour start; for a positive divisor `Int.ediv` is floor division). -/
def hourBucket (t : Int) : Int := Int.ediv t 3600

/-- Insert into a sorted list of integers, keeping order. -/
def sortedInsert (x : Int) : List Int → List Int
  | [] => [x]
  | y :: ys => if x ≤ y then x :: y :: ys else y :: sortedInsert x ys

/-- Sort a list of integers ascending. -/
def sortInts (l : List Int) : List Int := l.foldr sortedInsert []

/-- Deduplication pass with an accumulator of already-seen elements. -/
def dedupAux {α : Type} [DecidableEq α] (seen : List α) : List α → List α
  | [] => []
  | x :: xs => if seen.contains x then dedupAux seen xs else x :: dedupAux (x :: seen) xs

/-- Deduplicate, keeping the first occurrence of each element. -/
def dedupKeepOrder {α : Type} [DecidableEq α] (l : List α) : List α := dedupAux [] l

/-- `df["level"].unique()`: levels in order of first appearance. -/
def uniqueLevels (rows : List LogEntry) : List String :=
  dedupKeepOrder (rows.map (fun e => e.level))

/-- Number of entries of a level falling in a given hour bucket. -/
def countAt (rows : List LogEntry) (lvl : String) (b : Int) : Nat :=
  (rows.filter (fun e => decide (e.level = lvl) && decide (hourBucket e.timestamp = b))).length

/-- The sorted hour buckets in which a level has at least one entry
(the time index of `hourly_counts.xs(level, level=1)`). -/
def levelBuckets (rows : List LogEntry) (lvl : String) : List Int :=
  sortInts (dedupKeepOrder
    (rows.filterMap (fun e => if e.level = lvl then some (hourBucket e.timestamp) else none)))

/-- The per-level bucket-count series, keyed by hour bucket. -/
def seriesFor (rows : List LogEntry) (lvl : String) : List (Int × Nat) :=
  (levelBuckets rows lvl).map (fun b => (b, countAt rows lvl b))

/-- Arithmetic mean of a rational series (`np.mean`). -/
def meanQ (l : List ℚ) : ℚ := l.sum / (l.length : ℚ)

/-- Population variance of a rational series (`np.std(...)^2`,
`ddof = 0`, which is also what `scipy.stats.zscore` uses). -/
def popVar (l : List ℚ) : ℚ :=
  ((l.map (fun x => (x - meanQ l) ^ 2)).sum) / (l.length : ℚ)

/-- Square of the population z-score of `x` against the series `l`.
The source computes `z = (x - mean) / std` with `scipy.stats.zscore`
and tests `abs(z) > 2`; since `std ≥ 0`, that test is equivalent to
`z ^ 2 > 4`, i.e. `(x - mean) ^ 2 / var > 4`, which stays inside `ℚ`.
When the series is constant the source divides by a zero standard
deviation, producing IEEE NaN z-scores whose comparison with 2 is
false; here division by zero yields 0 and the comparison is false as
well, so the flagging behaviour coincides. -/
def zsq (l : List ℚ) (x : ℚ) : ℚ := (x - meanQ l) ^ 2 / popVar l

/-- One detected anomaly: the bucket timestamp (hour start, epoch
seconds), level and bucket count.  The float `z_score` field of the
source dict is determined by the other fields and is not carried. -/
structure AnomalyRecord where
  bucket : Int
  level : String
  count : Nat
  deriving Repr, DecidableEq

/-- The per-level body of the anomaly loop: series of hourly counts,
z-score test per bucket when the series has at least two points. -/
def anomalyPass (rows : List LogEntry) (lvl : String) : List AnomalyRecord :=
  let series := seriesFor rows lvl
  let counts := series.map (fun p => (p.2 : ℚ))
  if 1 < series.length then
    (series.filter (fun p => decide (4 < zsq counts (p.2 : ℚ)))).map
      (fun p => { bucket := p.1 * 3600, level := lvl, count := p.2 })
  else []

/-- `detect_anomalies`: hourly (bucket, level) counts, then per level
the buckets whose |z| exceeds 2.  The method wraps its body in a
`try/except` that logs and returns the partial list; none of the
modelled operations raises, so the body always completes. -/
def detect_anomalies (df : DF) : List AnomalyRecord :=
  (uniqueLevels df.rows).map (anomalyPass df.rows) |>.flatten

/-! ## Trend analysis -/

/-- Lexicographic order on code points, the order Python strings (and
hence pandas column labels) sort by. -/
def strLe (a b : String) : Bool :=
  let rec go : List Char → List Char → Bool
    | [], _ => true
    | _ :: _, [] => false
    | c :: cs, d :: ds => if c.toNat < d.toNat then true
        else if d.toNat < c.toNat then false
        else go cs ds
  go a.toList b.toList

/-- Sorted insert for strings (lexicographic). -/
def sortedInsertStr (x : String) : List String → List String
  | [] => [x]
  | y :: ys => if strLe x y then x :: y :: ys else y :: sortedInsertStr x ys

/-- Sort strings ascending; `unstack` sorts its column labels. -/
def sortStrings (l : List String) : List String := l.foldr sortedInsertStr []

/-- The column labels of the unstacked (bucket × level) count matrix:
the distinct levels, sorted. -/
def sortedLevels (rows : List LogEntry) : List String :=
  sortStrings (dedupKeepOrder (rows.map (fun e => e.level)))

/-- The row index of the unstacked matrix: every observed hour bucket,
sorted ascending. -/
def allBuckets (rows : List LogEntry) : List Int :=
  sortInts (dedupKeepOrder (rows.map (fun e => hourBucket e.timestamp)))

/-- The dense per-level column of the unstacked matrix: the count of
that level in every observed hour bucket, missing combinations filled
with 0 (`unstack(fill_value=0)`). -/
def denseSeries (rows : List LogEntry) (lvl : String) : List Nat :=
  (allBuckets rows).map (fun b => countAt rows lvl b)

/-- `growth = (last - first) / first if first != 0 else 0`. -/
def growthRate (first lastc : Nat) : ℚ :=
  if first ≠ 0 then ((lastc : ℚ) - (first : ℚ)) / (first : ℚ) else 0

/-- Result of `analyze_trends`: the time series dict (per level, the
bucket-start timestamp and count over the dense row index) and the
growth-rate dict. -/
structure TrendResult where
  time_series : List (String × List (Int × Nat))
  growth_rates : List (String × ℚ)
  deriving Repr, DecidableEq

/-- `analyze_trends` (default hourly grouping): build the dense
(bucket × level) count matrix, keep it as the time-series dict, and
for each level with more than one row compute the guarded growth rate
of its column.  The series length is the number of matrix rows, the
same for every level, so either every level gets a growth-rate entry
or none does.  The body is wrapped in a `try/except` returning `{}`;
none of the modelled operations raises. -/
def analyze_trends (df : DF) : TrendResult :=
  let rows := df.rows
  let bs := allBuckets rows
  let lvls := sortedLevels rows
  { time_series := lvls.map (fun l => (l, bs.map (fun b => (b * 3600, countAt rows l b))))
    growth_rates :=
      match bs with
      | [] => []
      | b0 :: rest =>
        if rest.isEmpty then []
        else lvls.map (fun l => (l, growthRate (countAt rows l b0) (countAt rows l (rest.getLastD b0)))) }

/-! ## Correlation of error events -/

/-- One correlated pair of ERROR entries.  Components are `Option`s:
`none` is the NaN a pandas row shows when the `component` column
exists but the row has no value. -/
structure CorrelationRecord where
  component1 : Option String
  component2 : Option String
  message1 : String
  message2 : String
  time_diff : Int
  deriving Repr, DecidableEq

/-- Stable insertion by timestamp. -/
def insertByTs (e : LogEntry) : List LogEntry → List LogEntry
  | [] => [e]
  | f :: fs => if e.timestamp ≤ f.timestamp then e :: f :: fs else f :: insertByTs e fs

/-- `df.sort_values("timestamp")`.  The source default sort is not
stable for equal keys; a stable sort is used here and all concrete
corpora below have distinct timestamps. -/
def sortByTs (l : List LogEntry) : List LogEntry := l.foldr insertByTs []

/-- The adjacent-pair scan of the sorted ERROR entries.  A pair whose
gap is at most the 5-minute window (300 s) produces a record.  When
the data frame has no `component` column, building the record raises
`KeyError("component")`, which the surrounding `try/except` catches,
returning the records accumulated so far — so the scan stops at the
first in-window pair and no record is ever produced. -/
def corrLoop (hasCol : Bool) : List LogEntry → List CorrelationRecord
  | e1 :: e2 :: rest =>
    if e2.timestamp - e1.timestamp ≤ 300 then
      if hasCol then
        { component1 := e1.component
          component2 := e2.component
          message1 := e1.message
          message2 := e2.message
          time_diff := e2.timestamp - e1.timestamp } :: corrLoop hasCol (e2 :: rest)
      else []
    else corrLoop hasCol (e2 :: rest)
  | _ => []

/-- `find_correlated_events` with the default 5-minute window. -/
def find_correlated_events (df : DF) : List CorrelationRecord :=
  corrLoop df.hasComponentColumn ((sortByTs df.rows).filter (fun e => decide (e.level = "ERROR")))

/-! ## Error prediction -/

/-- The confidence value of a prediction.  In the branch with at least
two ERROR entries the source computes
`1 / (1 + np.std(np.diff(timestamps)) / 3600)`, an irrational function
of the rational interval variance; that branch is represented
symbolically by the variance so the whole function stays executable. -/
inductive ConfVal where
  | val (q : ℚ)
  | fromVariance (variance : ℚ)
  deriving Repr, DecidableEq

/-- `predict_error_likelihood` result dict. -/
structure PredictionResult where
  error_likelihood : ℚ
  confidence_score : ConfVal
  deriving Repr, DecidableEq

/-- Successive differences (`np.diff`) of timestamps in row order (the
source does not sort before differencing). -/
def diffs : List Int → List Int
  | a :: b :: rest => (b - a) :: diffs (b :: rest)
  | _ => []

/-- `predict_error_likelihood`: filter to the named component, return
zeros below two entries, otherwise the error rate plus an
interval-regularity confidence — neutral 0.5 with fewer than two
ERROR entries.  Filtering on a missing `component` column raises
`KeyError`, which the `try/except` turns into the zero result. -/
def predict_error_likelihood (df : DF) (component : String) : PredictionResult :=
  if df.hasComponentColumn then
    let comp := df.rows.filter (fun e => decide (e.component = some component))
    if comp.length < 2 then
      { error_likelihood := 0, confidence_score := ConfVal.val 0 }
    else
      let errs := comp.filter (fun e => decide (e.level = "ERROR"))
      let rate : ℚ := (errs.length : ℚ) / (comp.length : ℚ)
      if 1 < errs.length then
        { error_likelihood := rate
          confidence_score := ConfVal.fromVariance
            (popVar ((diffs (errs.map (fun e => e.timestamp))).map (fun d => (d : ℚ)))) }
      else
        { error_likelihood := rate, confidence_score := ConfVal.val (1 / 2) }
  else
    { error_likelihood := 0, confidence_score := ConfVal.val 0 }

/-! ## The orchestrator `analyze_logs`

The directory scan and file reads are modelled by an explicit file
system: each file has a path and either its decoded text content or a
read failure (covering unreadable bytes, bad gzip data and undecodable
UTF-8 alike, all of which surface as an exception from the `open` /
`read` block).  `Path.rglob` on a directory that does not exist yields
no matches (pathlib checks `is_dir()` before scanning and returns an
empty iterator), so a missing root directory behaves exactly like an
empty one. -/

deriving instance DecidableEq for Except

/-- One file on disk, already decompressed and decoded (or failing to
open/decode). -/
structure FsFile where
  path : String
  content : Except String String
  deriving Repr, DecidableEq

/-- `str.startswith`, computed on character lists. -/
def startsWithPy (s t : String) : Bool :=
  decide (s.toList.take t.toList.length = t.toList)

/-- `str.endswith` (and glob suffix matching), computed on character
lists. -/
def endsWithPy (s t : String) : Bool :=
  decide (t.toList.length ≤ s.toList.length)
    && decide (s.toList.drop (s.toList.length - t.toList.length) = t.toList)

/-- Whether a path lies (at any depth) under a directory. -/
def isUnder (dir p : String) : Bool := startsWithPy p (dir ++ "/")

/-- The discovery loop: `rglob("*.log")` then `rglob("*.log.gz")`,
each in file-system order. -/
def findLogFiles (fs : List FsFile) (dir : String) : List FsFile :=
  fs.filter (fun f => isUnder dir f.path && endsWithPy f.path ".log")
    ++ fs.filter (fun f => isUnder dir f.path && endsWithPy f.path ".log.gz")

/-- Python `int(...)` on the digits of a time-range token: `some` for
an optionally signed, non-empty digit string, `none` where `int`
raises `ValueError`. -/
def pyInt (s : String) : Option Int :=
  match s.toList with
  | '-' :: ds => if ds ≠ [] && ds.all Char.isDigit then
      some (-(ds.foldl (fun a c => 10 * a + digitVal c) 0)) else none
  | '+' :: ds => if ds ≠ [] && ds.all Char.isDigit then
      some (ds.foldl (fun a c => 10 * a + digitVal c) 0) else none
  | ds => if ds ≠ [] && ds.all Char.isDigit then
      some (ds.foldl (fun a c => 10 * a + digitVal c) 0) else none

/-- Drop the final character (`time_range[:-1]`). -/
def dropLastChar (s : String) : String := String.mk s.toList.dropLast

/-- The time-range block of `analyze_logs`: an empty or absent token
is falsy and leaves `start_time = None`; a token ending in `d`, `w` or
`h` subtracts the corresponding `timedelta` from `now`; `int(...)` on
a non-numeric prefix raises `ValueError`; any other final character
falls through all three branches, silently leaving `start_time =
None`. -/
def startTimeOf (now : Int) (time_range : Option String) : Except PyError (Option Int) :=
  match time_range with
  | none => Except.ok none
  | some s =>
    if s = "" then Except.ok none
    else if endsWithPy s "d" then
      match pyInt (dropLastChar s) with
      | some n => Except.ok (some (now - n * 86400))
      | none => Except.error (PyError.valueError (dropLastChar s))
    else if endsWithPy s "w" then
      match pyInt (dropLastChar s) with
      | some n => Except.ok (some (now - n * 604800))
      | none => Except.error (PyError.valueError (dropLastChar s))
    else if endsWithPy s "h" then
      match pyInt (dropLastChar s) with
      | some n => Except.ok (some (now - n * 3600))
      | none => Except.error (PyError.valueError (dropLastChar s))
    else Except.ok none

/-- `error_types or ["ERROR", "WARN"]`: `None` and the empty list are
both falsy in Python, so both fall back to the default. -/
def effectiveErrorTypes (error_types : Option (List String)) : List String :=
  match error_types with
  | none => ["ERROR", "WARN"]
  | some [] => ["ERROR", "WARN"]
  | some l => l

/-- The feature toggles of `analyze_logs` (all default to `True` in
the source). -/
structure Toggles where
  detect_anomalies : Bool
  analyze_trends : Bool
  find_correlations : Bool
  predict_errors : Bool
  deriving Repr, DecidableEq

/-- All four toggles on: the source defaults. -/
def defaultToggles : Toggles :=
  { detect_anomalies := true, analyze_trends := true
    find_correlations := true, predict_errors := true }

/-- `defaultdict(int)` increment, preserving insertion order. -/
def bumpCount (counts : List (String × Nat)) (k : String) : List (String × Nat) :=
  match counts with
  | [] => [(k, 1)]
  | (k0, n) :: rest => if k0 = k then (k0, n + 1) :: rest else (k0, n) :: bumpCount rest k

/-- Minimum timestamp of the kept entries (`df["timestamp"].min()`),
`none` for an empty frame. -/
def minTs (rows : List LogEntry) : Option Int :=
  rows.foldl (fun acc e =>
    match acc with
    | none => some e.timestamp
    | some t => some (min t e.timestamp)) none

/-- Maximum timestamp of the kept entries. -/
def maxTs (rows : List LogEntry) : Option Int :=
  rows.foldl (fun acc e =>
    match acc with
    | none => some e.timestamp
    | some t => some (max t e.timestamp)) none

/-- The top-level result dict.  The optional sections are `none` when
the source omits the key.  The source line
`results["predictions"] = self.error_prediction(df)` can never
produce a value: `LogAnalyzer` defines no attribute
`error_prediction` (its prediction method is named
`predict_error_likelihood`), so reaching that line raises
`AttributeError` before any assignment; accordingly the result
structure has no predictions field and the orchestrator returns the
error instead. -/
structure AnalysisResult where
  total_entries : Nat
  error_counts : List (String × Nat)
  patterns : List String
  summary : String
  range_start : Option Int
  range_end : Option Int
  anomalies : Option (List AnomalyRecord)
  trends : Option TrendResult
  correlations : Option (List CorrelationRecord)
  deriving Repr, DecidableEq

/-- What a call to `analyze_logs` produces: the per-file failures sent
to `logger.error` (in order), and either the result dict or the
escaping exception. -/
structure RunOutcome where
  logs : List String
  result : Except PyError AnalysisResult
  deriving Repr, DecidableEq

/-- State threaded through the per-file loop: raw total, error counts,
kept entries, logged per-file failures. -/
structure ScanState where
  total : Nat
  counts : List (String × Nat)
  kept : List LogEntry
  logs : List String
  deriving Repr, DecidableEq

/-- Consume one yielded entry: count it, then apply the time filter;
kept entries are appended and counted per level when the level is in
the focus set. -/
def consumeEntry (etypes : List String) (start? : Option Int) (st : ScanState)
    (e : LogEntry) : ScanState :=
  let st := { st with total := st.total + 1 }
  match start? with
  | some t0 =>
    if e.timestamp < t0 then st
    else { st with
      kept := st.kept ++ [e]
      counts := if etypes.contains e.level then bumpCount st.counts e.level else st.counts }
  | none =>
    { st with
      kept := st.kept ++ [e]
      counts := if etypes.contains e.level then bumpCount st.counts e.level else st.counts }

/-- Process one discovered file inside the `try/except`: a failing
read contributes nothing but a logged failure; a file whose parse
raises mid-iteration keeps the entries yielded before the exception
and logs the failure; otherwise all entries are consumed. -/
def scanFile (etypes : List String) (start? : Option Int) (st : ScanState)
    (f : FsFile) : ScanState :=
  match f.content with
  | Except.error _ => { st with logs := st.logs ++ [f.path] }
  | Except.ok content =>
    let (es, err?) := process_log_file content
    let st2 := es.foldl (consumeEntry etypes start?) st
    match err? with
    | some _ => { st2 with logs := st2.logs ++ [f.path] }
    | none => st2

/-- The analysis phase after the scan: the base result is always
built; the advanced sections are attached only when the frame has
more than one row and the toggle is on; the prediction step then
raises `AttributeError` (undefined `error_prediction`). -/
def assembleResult (tg : Toggles) (st : ScanState) : Except PyError AnalysisResult :=
  let base : AnalysisResult :=
    { total_entries := st.total
      error_counts := st.counts
      patterns := []
      summary := if st.kept.isEmpty then "No matching log entries found." else "Analysis complete."
      range_start := minTs st.kept
      range_end := maxTs st.kept
      anomalies := none
      trends := none
      correlations := none }
  if 1 < st.kept.length then
    let df : DF := { hasComponentColumn := false, rows := st.kept }
    let r1 := if tg.detect_anomalies then { base with anomalies := some (detect_anomalies df) } else base
    let r2 := if tg.analyze_trends then { r1 with trends := some (analyze_trends df) } else r1
    let r3 := if tg.find_correlations then { r2 with correlations := some (find_correlated_events df) } else r2
    if tg.predict_errors then Except.error (PyError.attributeError "error_prediction")
    else Except.ok r3
  else Except.ok base

/-- The scan and analysis once the start time is known. -/
def analyzeCore (fs : List FsFile) (log_dir : String) (start? : Option Int)
    (etypes : List String) (tg : Toggles) : RunOutcome :=
  let st := (findLogFiles fs log_dir).foldl (scanFile etypes start?) ⟨0, [], [], []⟩
  { logs := st.logs, result := assembleResult tg st }

/-- `analyze_logs`: resolve defaults and the time window, discover and
scan the log files, then assemble the result.  `now` stands for
`datetime.now()` at the moment of the call. -/
def analyze_logs (fs : List FsFile) (log_dir : String) (now : Int)
    (time_range : Option String) (error_types : Option (List String))
    (tg : Toggles) : RunOutcome :=
  match startTimeOf now time_range with
  | Except.error e => { logs := [], result := Except.error e }
  | Except.ok start? => analyzeCore fs log_dir start? (effectiveErrorTypes error_types) tg

/-! ## Statement helpers

Plain observation functions used to state properties of the embedded
code. -/

/-- First-match association-list lookup (dict access). -/
def dictGet {β : Type} (k : String) : List (String × β) → Option β
  | [] => none
  | (k0, v) :: rest => if k0 = k then some v else dictGet k rest

/-- Adjacent pairs of a list: element `i` with element `i + 1`. -/
def adjPairs {α : Type} : List α → List (α × α)
  | a :: b :: rest => (a, b) :: adjPairs (b :: rest)
  | _ => []

/-! ## Concrete corpora for the claim instances -/

/-- Data-frame row built directly, the way the repository tests build
their frames. -/
def mkEntry (t : Int) (lvl : String) : LogEntry :=
  { timestamp := t, level := lvl, message := "m", component := none }

/-- `n` entries of one level inside hour bucket `h`, one second apart,
starting `off` seconds into the hour. -/
def hourBatch (h off n : Nat) (lvl : String) : List LogEntry :=
  (List.range n).map (fun i => mkEntry (3600 * (h : Int) + (off : Int) + (i : Int)) lvl)

/-- Corpus whose hourly ERROR series is `[10, 10, 10, 10, 100]`. -/
def corpusZ5 : List LogEntry :=
  ((List.range 5).map (fun h => hourBatch h 0 (if h = 4 then 100 else 10) "ERROR")).flatten

/-- Corpus whose hourly ERROR series is `[10, 10, 10, 10, 10, 100]`. -/
def corpusZ6 : List LogEntry :=
  ((List.range 6).map (fun h => hourBatch h 0 (if h = 5 then 100 else 10) "ERROR")).flatten

/-- Corpus whose hourly ERROR series is the constant `[5, 5, 5, 5]`. -/
def corpusConst : List LogEntry :=
  ((List.range 4).map (fun h => hourBatch h 0 5 "ERROR")).flatten

/-- Corpus with dense hourly series ERROR `[2, 4, 8]` and INFO
`[0, 5, 5]`. -/
def corpusTrend : List LogEntry :=
  hourBatch 0 0 2 "ERROR" ++ hourBatch 1 0 4 "ERROR" ++ hourBatch 2 0 8 "ERROR"
    ++ hourBatch 1 100 5 "INFO" ++ hourBatch 2 100 5 "INFO"

/-- Corpus whose entries all fall in a single hour bucket. -/
def corpusOneBucket : List LogEntry := hourBatch 0 0 3 "ERROR"

/-- A single-row frame for component `A` (one entry total). -/
def dfSingleA : DF :=
  { hasComponentColumn := true
    rows := [{ timestamp := 0, level := "INFO", message := "m", component := some "A" }] }

/-- Three entries for component `A`, exactly one of them ERROR. -/
def dfTripleA : DF :=
  { hasComponentColumn := true
    rows := [{ timestamp := 0, level := "INFO", message := "m", component := some "A" },
             { timestamp := 5, level := "ERROR", message := "m", component := some "A" },
             { timestamp := 9, level := "INFO", message := "m", component := some "A" }] }

/-- Two ERROR entries four minutes apart, neither carrying a
component (and hence no component column in the frame). -/
def eCorrA : LogEntry := { timestamp := 0, level := "ERROR", message := "a", component := none }

/-- Second entry of the correlation pair. -/
def eCorrB : LogEntry := { timestamp := 240, level := "ERROR", message := "b", component := none }

/-- Valid log file with three entries: one ERROR, two INFO. -/
def goodLogText : String :=
  "[2024-01-02 10:00:00] ERROR - boom\n[2024-01-02 10:01:00] INFO - ok\n[2024-01-02 10:02:00] INFO - ok2"

/-- Directory with an unreadable file followed by the valid file. -/
def fsScenario : List FsFile :=
  [{ path := "logs/bad.log", content := Except.error "unreadable" },
   { path := "logs/good.log", content := Except.ok goodLogText }]

/-- Directory with one file holding two parseable entries. -/
def fsOneFile : List FsFile :=
  [{ path := "logs/app.log",
     content := Except.ok "[2024-01-01 00:00:00] ERROR - a\n[2024-01-01 00:30:00] INFO - b" }]

/-- Text whose single pattern match has a calendar-invalid timestamp
(month 13), which `pd.to_datetime` cannot convert. -/
def badTsText : String := "[2024-13-01 00:00:00] ERROR - boom"

/-- The toggles the broken prediction step needs to be off for the
call to return: the source defaults with `predict_errors=False`. -/
def togglesNoPredict : Toggles :=
  { detect_anomalies := true, analyze_trends := true
    find_correlations := true, predict_errors := false }

/-- The empty well-formed result returned for a corpus with no
entries. -/
def emptyAnalysisResult : AnalysisResult :=
  { total_entries := 0, error_counts := [], patterns := []
    summary := "No matching log entries found."
    range_start := none, range_end := none
    anomalies := none, trends := none, correlations := none }

/-! ## Claim theorems -/

/-- C1: the claim fails on the code.  On an existing log directory
whose merged corpus has two entries, `analyze_logs` with the default
toggles (`predict_errors=True`) does not return an `AnalysisResult`
with a predictions section: the line
`results["predictions"] = self.error_prediction(df)` references a
method `LogAnalyzer` never defines (the prediction method is named
`predict_error_likelihood`), so the call raises `AttributeError`. -/
theorem analyze_logs_predict_toggle_raises_attribute_error :
    (analyze_logs fsOneFile "logs" 0 none none defaultToggles).result =
      Except.error (PyError.attributeError "error_prediction") := by
  decide

/-- C2 counterexample: called on a root directory that does not exist
(no file-system path lies under it), `analyze_logs` does not fail with
a reported error — `Path.rglob` of a missing directory yields nothing,
so the call returns the ordinary well-formed empty result. -/
theorem analyze_logs_missing_dir_returns_ok_cex :
    (analyze_logs fsOneFile "missing" 0 none none defaultToggles).result =
      Except.ok emptyAnalysisResult := by
  decide

/-- C3 counterexample: for the hourly ERROR series
`[10, 10, 10, 10, 100]` the population z-score of the last bucket is
exactly 2 (its square against the series is exactly 4), so the strict
test `|z| > 2` does not flag it and `detect_anomalies` reports no
anomaly at all on a corpus with exactly that series. -/
theorem detect_anomalies_spec_series_not_flagged_cex :
    seriesFor corpusZ5 "ERROR" = [(0, 10), (1, 10), (2, 10), (3, 10), (4, 100)]
    ∧ zsq ((seriesFor corpusZ5 "ERROR").map (fun p => (p.2 : ℚ))) 100 = 4
    ∧ detect_anomalies { hasComponentColumn := false, rows := corpusZ5 } = [] := by
  exact ⟨by decide, by decide, by decide⟩

/-- C3 amended: on `[10, 10, 10, 10, 100]` the last bucket's z-score
is exactly 2.0, so the strict threshold `|z| > 2` does not flag it and
no anomaly is reported; a last bucket strictly above that boundary —
e.g. the six-bucket series `[10, 10, 10, 10, 10, 100]`, where the
z-score is the square root of 5 — is flagged. -/
theorem detect_anomalies_threshold_strict :
    detect_anomalies { hasComponentColumn := false, rows := corpusZ5 } = []
    ∧ 4 < zsq ((seriesFor corpusZ6 "ERROR").map (fun p => (p.2 : ℚ))) 100
    ∧ detect_anomalies { hasComponentColumn := false, rows := corpusZ6 } =
        [{ bucket := 18000, level := "ERROR", count := 100 }] := by
  exact ⟨by decide, by decide, by decide⟩

/-- C4 counterexample: a component with exactly one entry yields
`confidence_score = 0.0` (and `error_likelihood = 0.0`), not the
claimed neutral 0.5 — the early return for fewer than 2 entries sets
both fields to zero. -/
theorem predict_error_likelihood_single_entry_cex :
    predict_error_likelihood dfSingleA "A" =
      { error_likelihood := 0, confidence_score := ConfVal.val 0 }
    ∧ ConfVal.val 0 ≠ ConfVal.val (1 / 2) := by
  exact ⟨by decide, by decide⟩

/-- C5 counterexample: two ERROR entries four minutes apart (inside
the five-minute window) with no component on either entry — and hence
no `component` column in the frame — produce no `CorrelationRecord`
at all: building the record raises `KeyError("component")`, the
internal handler catches it, and the scan returns the empty list, so
the pair is skipped rather than recorded with placeholders. -/
theorem find_correlated_events_no_component_column_cex :
    eCorrB.timestamp - eCorrA.timestamp ≤ 300
    ∧ eCorrA.component = none
    ∧ eCorrB.component = none
    ∧ find_correlated_events { hasComponentColumn := false, rows := [eCorrA, eCorrB] } = [] := by
  exact ⟨by decide, by decide, by decide, by decide⟩

/-- C6 counterexample: on a file whose single entry matches the
pattern but has an unparseable timestamp (month 13), the parser does
not skip the entry silently — `pd.to_datetime` raises, the exception
escapes the generator, and no entry is yielded. -/
theorem process_log_file_bad_timestamp_raises_cex :
    process_log_file badTsText =
      ([], some (PyError.valueError "2024-13-01 00:00:00")) := by
  decide

/-- Helper: the adjacent-pair loop with a component column present
records exactly the in-window adjacent pairs, in order. -/
lemma corrLoop_true_eq (l : List LogEntry) :
    corrLoop true l =
      ((adjPairs l).filter (fun p => decide (p.2.timestamp - p.1.timestamp ≤ 300))).map
        (fun p =>
          { component1 := p.1.component, component2 := p.2.component
            message1 := p.1.message, message2 := p.2.message
            time_diff := p.2.timestamp - p.1.timestamp }) := by
  induction l with
  | nil => rfl
  | cons a tail ih =>
    cases tail with
    | nil => rfl
    | cons b rest =>
      have h1 : adjPairs (a :: b :: rest) = (a, b) :: adjPairs (b :: rest) := rfl
      rw [h1]
      simp only [corrLoop]
      rw [ih]
      by_cases hw : b.timestamp - a.timestamp ≤ 300
      · have hw2 : b.timestamp ≤ 300 + a.timestamp := by omega
        simp [hw, hw2]
      · have hw2 : ¬b.timestamp ≤ 300 + a.timestamp := by omega
        simp [hw, hw2]

/-- Helper: with no component column the loop can never emit a
record — the first in-window pair raises `KeyError` (caught, with the
empty accumulator returned), and without in-window pairs there is
nothing to emit. -/
lemma corrLoop_false_eq (l : List LogEntry) : corrLoop false l = [] := by
  induction l with
  | nil => rfl
  | cons a tail ih =>
    cases tail with
    | nil => rfl
    | cons b rest =>
      by_cases hw : b.timestamp - a.timestamp ≤ 300
      · simp [corrLoop, hw]
      · simp [corrLoop, hw, ih]

/-- C5 corrected: when the frame has a component column, every
in-window adjacent ERROR pair produces a record carrying whatever the
two entries hold (`none` — pandas NaN — acting as the placeholder when
absent), and no pair is ever skipped; but when no entry carries a
component the column does not exist, and the scan yields no records at
all (the first in-window pair raises `KeyError`, caught internally),
so such pairs are skipped. -/
theorem find_correlated_events_component_column_behaviour (rows : List LogEntry) :
    find_correlated_events { hasComponentColumn := true, rows := rows } =
      ((adjPairs ((sortByTs rows).filter (fun e => decide (e.level = "ERROR")))).filter
          (fun p => decide (p.2.timestamp - p.1.timestamp ≤ 300))).map
        (fun p =>
          { component1 := p.1.component, component2 := p.2.component
            message1 := p.1.message, message2 := p.2.message
            time_diff := p.2.timestamp - p.1.timestamp })
    ∧ find_correlated_events { hasComponentColumn := false, rows := rows } = [] := by
  exact ⟨corrLoop_true_eq _, corrLoop_false_eq _⟩

/-- Helper: the generator yields the entries of the valid prefix of
matches and raises on the first match whose timestamp does not
convert. -/
lemma convertMatches_eq (ms : List RawMatch) :
    convertMatches ms =
      ((ms.takeWhile (fun m => (parseTimestamp m.timestamp).isSome)).map toEntry,
       (firstInvalid ms).map (fun m => PyError.valueError m.timestamp)) := by
  induction ms with
  | nil => rfl
  | cons m ms ih =>
    unfold convertMatches firstInvalid
    unfold firstInvalid at ih
    cases h : parseTimestamp m.timestamp with
    | some t =>
      rw [List.takeWhile_cons, List.dropWhile_cons]
      simp only [h, Option.isSome_some, if_true, ih]
      simp [toEntry, h]
    | none =>
      rw [List.takeWhile_cons, List.dropWhile_cons]
      simp [h]

/-- C6 corrected: the parser silently skips only text that does not
match the pattern.  Matches with convertible timestamps are yielded in
order; the first match whose timestamp cannot be converted makes the
parse raise `ValueError` (it is not skipped), ending the stream after
the entries already yielded. -/
theorem process_log_file_match_stream_behaviour (content : String) :
    process_log_file content =
      (((scan content).takeWhile (fun m => (parseTimestamp m.timestamp).isSome)).map toEntry,
       (firstInvalid (scan content)).map (fun m => PyError.valueError m.timestamp)) := by
  exact convertMatches_eq (scan content)

/-- C9: the claim is right and the code is wrong.  On a directory with
one unreadable file and one valid file of three entries (1 ERROR, 2
INFO), the scan itself behaves as claimed — the bad file is logged and
skipped, `total_entries = 3`, `error_counts = {ERROR: 1}` — but under
the source's default toggles the call then dies with `AttributeError`
from the undefined `error_prediction` step, so no result is returned.
With the broken prediction toggle off, the claimed result is exactly
what comes back. -/
theorem analyze_logs_bad_file_scenario_eval :
    (analyze_logs fsScenario "logs" 0 none none defaultToggles).result =
      Except.error (PyError.attributeError "error_prediction")
    ∧ (analyze_logs fsScenario "logs" 0 none none defaultToggles).logs = ["logs/bad.log"]
    ∧ (analyze_logs fsScenario "logs" 0 none none
        { detect_anomalies := false, analyze_trends := false
          find_correlations := false, predict_errors := false }).result.map
        (fun r => (r.total_entries, r.error_counts, r.summary)) =
      Except.ok (3, [("ERROR", 1)], "Analysis complete.")
    ∧ (analyze_logs fsScenario "logs" 0 none none
        { detect_anomalies := false, analyze_trends := false
          find_correlations := false, predict_errors := false }).logs = ["logs/bad.log"] := by
  exact ⟨by decide, by decide, by decide, by decide⟩

/-- Helper: an empty discovery list yields the empty well-formed
result whatever the toggles and focus levels are. -/
theorem analyze_logs_no_files_well_formed_empty (fs : List FsFile) (dir : String)
    (now : Int) (et : Option (List String)) (tg : Toggles)
    (h : findLogFiles fs dir = []) :
    analyze_logs fs dir now none et tg =
      { logs := [], result := Except.ok emptyAnalysisResult } := by
  show analyzeCore fs dir none (effectiveErrorTypes et) tg = _
  unfold analyzeCore
  rw [h]
  rfl

/-- C2 witness: the amended statement applied to a concrete file
system and a directory that does not exist in it. -/
theorem analyze_logs_no_files_well_formed_empty_witness :
    findLogFiles fsOneFile "missing" = []
    ∧ analyze_logs fsOneFile "missing" 5 none none defaultToggles =
        { logs := [], result := Except.ok emptyAnalysisResult } :=
  ⟨by decide,
   analyze_logs_no_files_well_formed_empty fsOneFile "missing" 5 none defaultToggles (by decide)⟩

/-- C10: a time-range token whose final character is none of `d`, `w`,
`h` falls through all three suffix branches, silently leaving
`start_time = None`: the call behaves exactly as if no time range had
been passed (the token is ignored rather than rejected). -/
theorem analyze_logs_unknown_time_suffix_ignored (fs : List FsFile) (dir : String)
    (now : Int) (s : String) (et : Option (List String)) (tg : Toggles)
    (hd : endsWithPy s "d" = false) (hw : endsWithPy s "w" = false)
    (hh : endsWithPy s "h" = false) :
    analyze_logs fs dir now (some s) et tg = analyze_logs fs dir now none et tg := by
  unfold analyze_logs
  have hst : startTimeOf now (some s) = Except.ok none := by
    unfold startTimeOf
    by_cases hs : s = ""
    · simp [hs]
    · simp [hs, hd, hw, hh]
  rw [hst]
  rfl

/-- C10 witness: the token `30m` at a concrete call. -/
theorem analyze_logs_unknown_time_suffix_ignored_witness :
    endsWithPy "30m" "d" = false ∧ endsWithPy "30m" "w" = false
    ∧ endsWithPy "30m" "h" = false
    ∧ analyze_logs fsScenario "logs" 1704190000 (some "30m") none defaultToggles =
        analyze_logs fsScenario "logs" 1704190000 none none defaultToggles :=
  ⟨by decide, by decide, by decide,
   analyze_logs_unknown_time_suffix_ignored fsScenario "logs" 1704190000 "30m" none
     defaultToggles (by decide) (by decide) (by decide)⟩

/-- C4 amended: with at most one ERROR entry for the component, the
result depends on the total entry count — fewer than 2 entries yields
zeros for both fields (not the claimed 0.5 confidence), while at
least 2 entries yields the error rate with the neutral 0.5
confidence. -/
theorem predict_error_likelihood_low_error_confidence (df : DF) (c : String)
    (hcol : df.hasComponentColumn = true)
    (herr : ((df.rows.filter (fun e => decide (e.component = some c))).filter
        (fun e => decide (e.level = "ERROR"))).length ≤ 1) :
    predict_error_likelihood df c =
      if (df.rows.filter (fun e => decide (e.component = some c))).length < 2 then
        { error_likelihood := 0, confidence_score := ConfVal.val 0 }
      else
        { error_likelihood :=
            (((df.rows.filter (fun e => decide (e.component = some c))).filter
                (fun e => decide (e.level = "ERROR"))).length : ℚ) /
              ((df.rows.filter (fun e => decide (e.component = some c))).length : ℚ)
          confidence_score := ConfVal.val (1 / 2) } := by
  unfold predict_error_likelihood
  rw [hcol]
  by_cases hlen : (df.rows.filter (fun e => decide (e.component = some c))).length < 2
  · simp only [if_true, if_pos hlen]
  · have hne : ¬1 < ((df.rows.filter (fun e => decide (e.component = some c))).filter
        (fun e => decide (e.level = "ERROR"))).length := by omega
    simp only [if_true, if_neg hlen, if_neg hne]

/-- C4 witness: a component with three entries, one of them ERROR,
gets likelihood one third and the neutral confidence. -/
theorem predict_error_likelihood_low_error_confidence_witness :
    dfTripleA.hasComponentColumn = true
    ∧ ((dfTripleA.rows.filter (fun e => decide (e.component = some "A"))).filter
        (fun e => decide (e.level = "ERROR"))).length ≤ 1
    ∧ predict_error_likelihood dfTripleA "A" =
        { error_likelihood := 1 / 3, confidence_score := ConfVal.val (1 / 2) } := by
  refine ⟨rfl, by decide, ?_⟩
  have h := predict_error_likelihood_low_error_confidence dfTripleA "A" rfl (by decide)
  rw [h]
  decide

/-- Helper: looking a key up in the dict built by mapping the key list
to key-value pairs gives the value at that key. -/
lemma dictGet_map_self {β : Type} (g : String → β) (l : String) :
    ∀ ls : List String, l ∈ ls → dictGet l (ls.map (fun x => (x, g x))) = some (g l) := by
  intro ls
  induction ls with
  | nil => intro h; exact absurd h (List.not_mem_nil l)
  | cons x ls ih =>
    intro h
    by_cases hx : x = l
    · subst hx; simp [dictGet]
    · have hmem : l ∈ ls := by
        rcases List.mem_cons.mp h with h1 | h1
        · exact absurd h1.symm hx
        · exact h1
      simp [dictGet, hx, ih hmem]

/-- Helper: the last element of a mapped list is the image of the last
element. -/
lemma getLastD_map_nat (f : Int → Nat) :
    ∀ (bs : List Int) (b : Int), (bs.map f).getLastD (f b) = f (bs.getLastD b) := by
  intro bs
  induction bs with
  | nil => intro b; rfl
  | cons x bs ih =>
    intro b
    rw [List.map_cons, List.getLastD_cons, List.getLastD_cons]
    exact ih x

/-- C7: for every level of the corpus, when the dense bucket matrix
has more than one row the reported growth rate is exactly
`(last - first) / first`, guarded to 0 when the first bucket count is
0; with a single row no level has a growth-rate entry. -/
theorem analyze_trends_growth_rate_formula (df : DF) (l : String)
    (hl : l ∈ sortedLevels df.rows) :
    (1 < (denseSeries df.rows l).length →
      dictGet l (analyze_trends df).growth_rates =
        some (growthRate ((denseSeries df.rows l).headD 0)
          ((denseSeries df.rows l).getLastD 0)))
    ∧ ((denseSeries df.rows l).length ≤ 1 →
      dictGet l (analyze_trends df).growth_rates = none) := by
  cases hbs : allBuckets df.rows with
  | nil =>
    constructor
    · intro h
      rw [denseSeries, hbs] at h
      simp at h
    · intro _
      simp [analyze_trends, hbs, dictGet]
  | cons b0 rest =>
    cases rest with
    | nil =>
      constructor
      · intro h
        rw [denseSeries, hbs] at h
        simp at h
      · intro _
        simp [analyze_trends, hbs, dictGet]
    | cons b1 rest2 =>
      constructor
      · intro _
        have hmap : (analyze_trends df).growth_rates =
            (sortedLevels df.rows).map (fun l =>
              (l, growthRate (countAt df.rows l b0)
                (countAt df.rows l ((b1 :: rest2).getLastD b0)))) := by
          simp [analyze_trends, hbs]
        rw [hmap, dictGet_map_self
          (fun l => growthRate (countAt df.rows l b0)
            (countAt df.rows l ((b1 :: rest2).getLastD b0))) l (sortedLevels df.rows) hl]
        have hhead : (denseSeries df.rows l).headD 0 = countAt df.rows l b0 := by
          rw [denseSeries, hbs]; rfl
        have hlast : (denseSeries df.rows l).getLastD 0 =
            countAt df.rows l ((b1 :: rest2).getLastD b0) := by
          rw [denseSeries, hbs, List.map_cons, List.getLastD_cons,
            getLastD_map_nat (countAt df.rows l) (b1 :: rest2) b0]
        rw [hhead, hlast]
      · intro h
        rw [denseSeries, hbs] at h
        simp at h

/-- C7 witness: on the corpus with dense ERROR series `[2, 4, 8]` and
INFO series `[0, 5, 5]` the growth rates are 3 and 0 (guarded
division), and a single-bucket corpus has no growth-rate entry. -/
theorem analyze_trends_growth_rate_formula_witness :
    ("ERROR" ∈ sortedLevels corpusTrend)
    ∧ dictGet "ERROR" (analyze_trends
        { hasComponentColumn := false, rows := corpusTrend }).growth_rates = some 3
    ∧ dictGet "INFO" (analyze_trends
        { hasComponentColumn := false, rows := corpusTrend }).growth_rates = some 0
    ∧ dictGet "ERROR" (analyze_trends
        { hasComponentColumn := false, rows := corpusOneBucket }).growth_rates = none := by
  refine ⟨by decide, ?_, ?_, ?_⟩
  · have h := (analyze_trends_growth_rate_formula
      { hasComponentColumn := false, rows := corpusTrend } "ERROR" (by decide)).1 (by decide)
    rw [h]; decide
  · have h := (analyze_trends_growth_rate_formula
      { hasComponentColumn := false, rows := corpusTrend } "INFO" (by decide)).1 (by decide)
    rw [h]; decide
  · exact (analyze_trends_growth_rate_formula
      { hasComponentColumn := false, rows := corpusOneBucket } "ERROR" (by decide)).2 (by decide)

/-- Helper: the mean of a non-empty constant series is the constant. -/
lemma meanQ_const (s : List ℚ) (c : ℚ) (hne : s ≠ []) (hc : ∀ x ∈ s, x = c) :
    meanQ s = c := by
  have hs : s = List.replicate s.length c := List.eq_replicate_of_mem hc
  have hn : (s.length : ℚ) ≠ 0 := by
    have hpos : 0 < s.length := List.length_pos.mpr hne
    exact_mod_cast Nat.pos_iff_ne_zero.mp hpos
  rw [meanQ]
  nth_rewrite 1 [hs]
  rw [List.sum_replicate, nsmul_eq_mul]
  field_simp

/-- Helper: on a constant series every squared z-score is 0 (the
numerator vanishes; with zero variance the division yields 0 as well,
matching the never-flagged NaN of the source). -/
lemma zsq_const_zero (s : List ℚ) (c : ℚ) (hne : s ≠ []) (hc : ∀ x ∈ s, x = c)
    (x : ℚ) (hx : x ∈ s) : zsq s x = 0 := by
  have hm := meanQ_const s c hne hc
  rw [zsq, hm, hc x hx]
  simp

/-- Helper: every record the per-level pass produces is tagged with
that level. -/
lemma anomalyPass_level_mem (rows : List LogEntry) (lvl : String) (r : AnomalyRecord)
    (hr : r ∈ anomalyPass rows lvl) : r.level = lvl := by
  unfold anomalyPass at hr
  by_cases h : 1 < (seriesFor rows lvl).length
  · rw [if_pos h] at hr
    rcases List.mem_map.mp hr with ⟨p, _, rfl⟩
    rfl
  · rw [if_neg h] at hr
    exact absurd hr (List.not_mem_nil r)

/-- Helper: the per-level pass on a constant series flags nothing. -/
lemma anomalyPass_const_nil (rows : List LogEntry) (lvl : String) (c : ℚ)
    (hc : ∀ x ∈ (seriesFor rows lvl).map (fun p => (p.2 : ℚ)), x = c) :
    anomalyPass rows lvl = [] := by
  unfold anomalyPass
  by_cases h : 1 < (seriesFor rows lvl).length
  · rw [if_pos h]
    have hne : (seriesFor rows lvl).map (fun p => (p.2 : ℚ)) ≠ [] := by
      intro h0
      have hlen := congrArg List.length h0
      rw [List.length_map, List.length_nil] at hlen
      omega
    have hfil : (seriesFor rows lvl).filter
        (fun p => decide (4 < zsq ((seriesFor rows lvl).map (fun q => (q.2 : ℚ))) (p.2 : ℚ))) = [] := by
      apply List.filter_eq_nil_iff.mpr
      intro p hp
      have hmem : ((p.2 : ℚ)) ∈ (seriesFor rows lvl).map (fun q => (q.2 : ℚ)) :=
        List.mem_map.mpr ⟨p, hp, rfl⟩
      have hz := zsq_const_zero _ c hne hc (p.2 : ℚ) hmem
      simp [hz]
    rw [hfil]
    rfl
  · rw [if_neg h]

/-- Helper: once the pass for level `l` is empty, the whole flattened
record list has nothing at level `l` (records of other levels carry
their own tags). -/
lemma flatten_passes_filter_nil (rows : List LogEntry) (l : String)
    (hnil : anomalyPass rows l = []) :
    ∀ L : List String,
      ((L.map (anomalyPass rows)).flatten).filter (fun r => decide (r.level = l)) = [] := by
  intro L
  induction L with
  | nil => rfl
  | cons x L ih =>
    rw [List.map_cons, List.flatten_cons, List.filter_append, ih, List.append_nil]
    by_cases hx : x = l
    · rw [hx, hnil]
      rfl
    · apply List.filter_eq_nil_iff.mpr
      intro r hr
      have := anomalyPass_level_mem rows x r hr
      simp [this, hx]

/-- C8: for a severity level whose bucket-count series is constant
with at least two buckets, every z-score of that series is 0 and
`detect_anomalies` reports no anomaly for that level. -/
theorem detect_anomalies_constant_series_none (df : DF) (l : String) (c : ℚ)
    (hlen : 2 ≤ (seriesFor df.rows l).length)
    (hc : ∀ x ∈ (seriesFor df.rows l).map (fun p => (p.2 : ℚ)), x = c) :
    (∀ x ∈ (seriesFor df.rows l).map (fun p => (p.2 : ℚ)),
        zsq ((seriesFor df.rows l).map (fun p => (p.2 : ℚ))) x = 0)
    ∧ (detect_anomalies df).filter (fun r => decide (r.level = l)) = [] := by
  have hne : (seriesFor df.rows l).map (fun p => (p.2 : ℚ)) ≠ [] := by
    intro h0
    have hlen0 := congrArg List.length h0
    rw [List.length_map, List.length_nil] at hlen0
    omega
  constructor
  · intro x hx
    exact zsq_const_zero _ c hne hc x hx
  · unfold detect_anomalies
    exact flatten_passes_filter_nil df.rows l
      (anomalyPass_const_nil df.rows l c hc) (uniqueLevels df.rows)

/-- C8 witness: the constant hourly ERROR series `[5, 5, 5, 5]`
produces no anomalies. -/
theorem detect_anomalies_constant_series_none_witness :
    2 ≤ (seriesFor corpusConst "ERROR").length
    ∧ (∀ x ∈ (seriesFor corpusConst "ERROR").map (fun p => (p.2 : ℚ)), x = 5)
    ∧ (detect_anomalies { hasComponentColumn := false, rows := corpusConst }).filter
        (fun r => decide (r.level = "ERROR")) = [] := by
  refine ⟨by decide, by decide, ?_⟩
  exact (detect_anomalies_constant_series_none
    { hasComponentColumn := false, rows := corpusConst } "ERROR" 5 (by decide) (by decide)).2

end LogAnalyzer
